import Mathlib

/-!
# Hallon `Session` binding (`ext/hallon/session.c`)

A shallow embedding of the C extension that wraps one libspotify session in a
Ruby object.  The four functions of the file that do the work are embedded:

* `cSession_alloc`       (lines 4-7)
* `cSession_free`        (lines 9-13)
* `cSession_initialize`  (lines 23-79)
* `cSession_state`       (lines 81-92)

Everything outside the file is a collaborator.  The Ruby runtime calls
(`rb_scan_args`, `Check_Type`, `rb_str_new2`, `StringValuePtr`, ...) are
embedded after their documented C-API behaviour.  The libspotify entry points
and `Dir.mktmpdir` are fields of the record `Native`; every call made to them
is written to a call log, so that "how often was it called, and with what" is
a statement about the log.  The macros of `common.h`, which is not part of the
sources at hand, are modelled from the specification and marked as such.
-/

namespace Hallon

/-! ## Ruby values -/

/-- A Ruby `VALUE`, as far as `session.c` can tell values apart: `Check_Type`
looks at the built-in type tag only.  A string is its byte sequence (Ruby
strings are binary-safe: the bytes may contain NUL). -/
inductive VALUE where
  | nil
  | str (bytes : List Nat)
  | sym (name : String)
  | fixnum (n : Int)
  | data (id : Nat)
  deriving DecidableEq, Repr

/-- The exceptions the binding can leave with.  `TypeError` is what
`Check_Type` raises (the specification's `TypeArgumentError`), `ArgumentError`
is what `rb_scan_args` raises on a wrong argument count, `SystemCallError`
stands for a failure inside `Dir.mktmpdir`.  `NativeSessionError` and
`InvalidStateError` are the specification's names for what the macros of
`common.h` raise. -/
inductive Exception where
  | TypeError
  | ArgumentError
  | SystemCallError (errno : Nat)
  | NativeSessionError (code : Nat)
  | InvalidStateError
  deriving DecidableEq, Repr

/-- The outcome of a C function that either returns or raises. -/
inductive Result (α : Type) where
  | returned (v : α)
  | raised (e : Exception)
  deriving DecidableEq, Repr

/-- The bytes of a C string literal (the literals of `session.c` are ASCII). -/
def cstr (s : String) : List Nat := s.toList.map Char.toNat

/-- `rb_str_new2(ptr)`: a new Ruby string holding the bytes of a C string. -/
def rb_str_new2 (s : String) : VALUE := .str (cstr s)

/-- `TYPE(v) == T_STRING`. -/
def VALUE.isString : VALUE → Bool
  | .str _ => true
  | _ => false

/-- `Check_Type(v, T_STRING)`: raises `TypeError` unless `v` is a string. -/
def Check_Type_STRING (v : VALUE) : Result Unit :=
  if v.isString then .returned () else .raised .TypeError

/-- `RSTRING_PTR(v)` / `StringValuePtr(v)` for a value that passed
`Check_Type(v, T_STRING)`: the string buffer.  (Both are only reached after
the four type checks, so the other branch is never taken.) -/
def RSTRING_PTR : VALUE → List Nat
  | .str bytes => bytes
  | _ => []

/-- `RSTRING_LEN(v)`: the stored byte length of the string. -/
def RSTRING_LEN (v : VALUE) : Nat := (RSTRING_PTR v).length

/-- C `strlen`: the number of bytes before the first NUL. -/
def strlen (bytes : List Nat) : Nat := (bytes.takeWhile (fun b => b != 0)).length

/-- Modelled from the spec: the macro `STR2SYM` of `common.h`, which is not
among the sources.  The status is mapped "to one of exactly four symbolic
values"; the macro makes the symbol named by a C string. -/
def STR2SYM (s : String) : VALUE := .sym s

/-! ## libspotify types -/

/-- An `sp_session *`; `0` is `NULL`. -/
abbrev sp_session := Nat

/-- The C `NULL` pointer. -/
def NULL : sp_session := 0

/-- An `sp_error` status code. -/
abbrev sp_error := Nat

/-- `SP_ERROR_OK` of libspotify's `api.h`. -/
def SP_ERROR_OK : sp_error := 0

/-- `SP_CONNECTION_STATE_LOGGED_OUT` of libspotify's `api.h`. -/
def SP_CONNECTION_STATE_LOGGED_OUT : Int := 0
/-- `SP_CONNECTION_STATE_LOGGED_IN` of libspotify's `api.h`. -/
def SP_CONNECTION_STATE_LOGGED_IN : Int := 1
/-- `SP_CONNECTION_STATE_DISCONNECTED` of libspotify's `api.h`. -/
def SP_CONNECTION_STATE_DISCONNECTED : Int := 2

/-- The `sp_session_callbacks` table: fifteen function pointers, `none` being
`NULL` (lines 41-58). -/
structure sp_session_callbacks where
  logged_in : Option Nat
  logged_out : Option Nat
  metadata_updated : Option Nat
  connection_error : Option Nat
  message_to_user : Option Nat
  play_token_lost : Option Nat
  streaming_error : Option Nat
  log_message : Option Nat
  userinfo_updated : Option Nat
  notify_main_thread : Option Nat
  music_delivery : Option Nat
  end_of_track : Option Nat
  start_playback : Option Nat
  stop_playback : Option Nat
  get_audio_buffer_stats : Option Nat
  deriving DecidableEq, Repr

/-- The slots of a callback table, in declaration order. -/
def sp_session_callbacks.slots (c : sp_session_callbacks) : List (Option Nat) :=
  [c.logged_in, c.logged_out, c.metadata_updated, c.connection_error,
   c.message_to_user, c.play_token_lost, c.streaming_error, c.log_message,
   c.userinfo_updated, c.notify_main_thread, c.music_delivery, c.end_of_track,
   c.start_playback, c.stop_playback, c.get_audio_buffer_stats]

/-- The `sp_session_config` record handed to `sp_session_create`
(lines 60-71).  A `char *` field is the buffer it points to. -/
structure sp_session_config where
  api_version : Int
  cache_location : List Nat
  settings_location : List Nat
  application_key : List Nat
  application_key_size : Nat
  user_agent : List Nat
  callbacks : sp_session_callbacks
  userdata : VALUE
  tiny_settings : Bool
  deriving DecidableEq, Repr

/-! ## Collaborators and the call log -/

/-- One call that leaves `session.c`. -/
inductive Call where
  | mktmpdir (arg : VALUE)
  | sp_session_create (config : sp_session_config)
  | sp_session_release (session : sp_session)
  | sp_session_connectionstate (session : sp_session)
  deriving DecidableEq, Repr

/-- The collaborators of `session.c`.

* `SPOTIFY_API_VERSION`: the constant of libspotify's `api.h`.
* `mktmpdir`: `Dir.mktmpdir(arg)`, which returns a value or raises.
* `sp_session_create config old`: the status returned, and what the callee
  leaves in the out-parameter `*sess`, whose content before the call is `old`.
* `sp_session_connectionstate session`: the status code returned. -/
structure Native where
  SPOTIFY_API_VERSION : Int
  mktmpdir : VALUE → Result VALUE
  sp_session_create : sp_session_config → sp_session → sp_error × sp_session
  sp_session_connectionstate : sp_session → Int

/-- The Ruby object that wraps a session: its identity and the content of the
`sp_session *` cell that its data pointer (`sp_session **`) addresses. -/
structure Session where
  id : Nat
  pval : sp_session
  deriving DecidableEq, Repr

/-- The `VALUE` of a session object (`self`). -/
def Session.self (s : Session) : VALUE := .data s.id

/-- What a function of the binding did: how it ended, the session object
afterwards, and the calls it made to the collaborators, in order. -/
structure Outcome (α : Type) where
  result : Result α
  session : Session
  calls : List Call

/-- Is the call a call of `sp_session_release`? -/
def Call.isRelease : Call → Bool
  | .sp_session_release _ => true
  | _ => false

/-- Is the call a call of `sp_session_create`? -/
def Call.isCreate : Call → Bool
  | .sp_session_create _ => true
  | _ => false

/-- Is the call a call of `Dir.mktmpdir`? -/
def Call.isMktmpdir : Call → Bool
  | .mktmpdir _ => true
  | _ => false

/-- The number of calls in a log that satisfy `p`. -/
def countCalls (p : Call → Bool) (calls : List Call) : Nat := (calls.filter p).length

/-! ## The macros of `common.h` -/

/-- Modelled from the spec: the macro `Data_Make_Ptr` of `common.h`, which is
not among the sources.  It wraps a freshly allocated `sp_session *` cell in a
Ruby object of class `klass`; the object is "allocated but not yet backed by a
native resource", its resource pointer "still null".  `id` is the identity the
runtime gives the new object. -/
def Data_Make_Ptr (_klass : VALUE) (id : Nat) : Session := ⟨id, NULL⟩

/-- Modelled from the spec: the macro `ASSERT_NOT_EMPTY` of `common.h`, which
is not among the sources.  Teardown "must be safe to call even if construction
partially failed (no release on a null/never-created resource)" and must not
raise: on an empty pointer the macro leaves the enclosing function.  The macro
is given the `sp_session **` of the object; an object always has its cell, so
the pointer is empty when the cell holds `NULL`.  The result says whether the
function goes on. -/
def ASSERT_NOT_EMPTY (pval : sp_session) : Bool := pval != NULL

/-- Modelled from the spec: the macro `ASSERT_OK` of `common.h`, which is not
among the sources.  A non-success status "fails with `NativeSessionError`
carrying the native error code". -/
def ASSERT_OK (error : sp_error) : Result Unit :=
  if error = SP_ERROR_OK then .returned () else .raised (.NativeSessionError error)

/-- Modelled from the spec: the macro `Data_Get_PVal` of `common.h`, which is
not among the sources.  It reads the `sp_session *` out of the object; the
access is guarded, "fails with `InvalidStateError`" when the object has no
native resource. -/
def Data_Get_PVal (self : Session) : Result sp_session :=
  if self.pval = NULL then .raised .InvalidStateError else .returned self.pval

/-! ## `session.c` -/

/-- `cSession_alloc` (lines 4-7). -/
def cSession_alloc (klass : VALUE) (id : Nat) : Session :=
  Data_Make_Ptr klass id

/-- `cSession_free` (lines 9-13): the guard, then `sp_session_release` on the
content of the cell.  The cell itself is not written. -/
def cSession_free (session_ptr : Session) : Outcome Unit :=
  if ASSERT_NOT_EMPTY session_ptr.pval then
    ⟨.returned (), session_ptr, [.sp_session_release session_ptr.pval]⟩
  else
    ⟨.returned (), session_ptr, []⟩

/-- The four arguments of `initialize` after `rb_scan_args` and the defaults. -/
structure Args where
  appkey : VALUE
  user_agent : VALUE
  settings_path : VALUE
  cache_path : VALUE
  deriving DecidableEq, Repr

/-- `rb_scan_args(argc, argv, "13", &appkey, &user_agent, &settings_path,
&cache_path)`: one mandatory and three optional arguments.  It raises
`ArgumentError` on any other count, sets the optional arguments that are not
given to `nil`, and returns the number of arguments given. -/
def rb_scan_args_13 (argv : List VALUE) : Result (Nat × Args) :=
  match argv with
  | [a] => .returned (1, ⟨a, .nil, .nil, .nil⟩)
  | [a, u] => .returned (2, ⟨a, u, .nil, .nil⟩)
  | [a, u, s] => .returned (3, ⟨a, u, s, .nil⟩)
  | [a, u, s, c] => .returned (4, ⟨a, u, s, c⟩)
  | _ => .raised .ArgumentError

/-- The `switch` of lines 29-34.  No case ends in `break`: case 1 runs the
assignments of cases 2 and 3 as well, case 2 that of case 3. -/
def defaults (tmpdir : VALUE) (argc : Nat) (args : Args) : Args :=
  match argc with
  | 1 =>
    let user_agent := rb_str_new2 "Hallon"
    let settings_path := tmpdir
    let cache_path := settings_path
    ⟨args.appkey, user_agent, settings_path, cache_path⟩
  | 2 =>
    let settings_path := tmpdir
    let cache_path := settings_path
    ⟨args.appkey, args.user_agent, settings_path, cache_path⟩
  | 3 =>
    let cache_path := args.settings_path
    ⟨args.appkey, args.user_agent, args.settings_path, cache_path⟩
  | _ => args

/-- Lines 29-34 as a whole: the resolved arguments of a call with `argv`,
`tmpdir` being what `Dir.mktmpdir` returned on line 27. -/
def resolve (tmpdir : VALUE) (argv : List VALUE) : Result Args :=
  match rb_scan_args_13 argv with
  | .raised e => .raised e
  | .returned (argc, args) => .returned (defaults tmpdir argc args)

/-- Lines 36-39: the four `Check_Type(_, T_STRING)` in order. -/
def check_types (args : Args) : Result Unit :=
  match Check_Type_STRING args.appkey with
  | .raised e => .raised e
  | .returned _ =>
  match Check_Type_STRING args.user_agent with
  | .raised e => .raised e
  | .returned _ =>
  match Check_Type_STRING args.settings_path with
  | .raised e => .raised e
  | .returned _ => Check_Type_STRING args.cache_path

/-- Lines 41-58: the callback table, every slot `NULL`. -/
def callbacks : sp_session_callbacks :=
  { logged_in := none
    logged_out := none
    metadata_updated := none
    connection_error := none
    message_to_user := none
    play_token_lost := none
    streaming_error := none
    log_message := none
    userinfo_updated := none
    notify_main_thread := none
    music_delivery := none
    end_of_track := none
    start_playback := none
    stop_playback := none
    get_audio_buffer_stats := none }

/-- Lines 60-71: the configuration record. -/
def config (N : Native) (args : Args) (self : VALUE) : sp_session_config :=
  { api_version := N.SPOTIFY_API_VERSION
    cache_location := RSTRING_PTR args.cache_path
    settings_location := RSTRING_PTR args.settings_path
    application_key := RSTRING_PTR args.appkey
    application_key_size := RSTRING_LEN args.appkey
    user_agent := RSTRING_PTR args.user_agent
    callbacks := callbacks
    userdata := self
    tiny_settings := true }

/-- The argument of the `Dir.mktmpdir` call (line 26). -/
def tmp_prefix : VALUE := rb_str_new2 "se.burgestrand.hallon"

/-- `cSession_initialize` (lines 23-79).  In source order: the call of
`Dir.mktmpdir` (lines 26-27), `rb_scan_args` and the defaults (29-34), the
type checks (36-39), the configuration record (41-71), `sp_session_create`
writing into the cell of `self` (73-74), `ASSERT_OK` (76), `return self`.
`Data_Get_Ptr(self, sp_session)` on line 73 is the address of the cell of
`self`; the callee's write to it is the new `pval`. -/
def cSession_initialize (N : Native) (argv : List VALUE) (self : Session) : Outcome VALUE :=
  match N.mktmpdir tmp_prefix with
  | .raised e => ⟨.raised e, self, [.mktmpdir tmp_prefix]⟩
  | .returned tmpdir =>
  match resolve tmpdir argv with
  | .raised e => ⟨.raised e, self, [.mktmpdir tmp_prefix]⟩
  | .returned args =>
  match check_types args with
  | .raised e => ⟨.raised e, self, [.mktmpdir tmp_prefix]⟩
  | .returned _ =>
    let cfg := config N args self.self
    let created := N.sp_session_create cfg self.pval
    let error := created.1
    let self1 : Session := ⟨self.id, created.2⟩
    let calls := [Call.mktmpdir tmp_prefix, Call.sp_session_create cfg]
    match ASSERT_OK error with
    | .raised e => ⟨.raised e, self1, calls⟩
    | .returned _ => ⟨.returned self1.self, self1, calls⟩

/-- `cSession_state` (lines 81-92). -/
def cSession_state (N : Native) (self : Session) : Outcome VALUE :=
  match Data_Get_PVal self with
  | .raised e => ⟨.raised e, self, []⟩
  | .returned session_ptr =>
    let state := N.sp_session_connectionstate session_ptr
    let calls := [Call.sp_session_connectionstate session_ptr]
    if state = SP_CONNECTION_STATE_LOGGED_OUT then
      ⟨.returned (STR2SYM "logged_out"), self, calls⟩
    else if state = SP_CONNECTION_STATE_LOGGED_IN then
      ⟨.returned (STR2SYM "logged_in"), self, calls⟩
    else if state = SP_CONNECTION_STATE_DISCONNECTED then
      ⟨.returned (STR2SYM "disconnected"), self, calls⟩
    else
      ⟨.returned (STR2SYM "undefined"), self, calls⟩

/-! ## Test doubles -/

/-- A collaborator set for evaluation: `Dir.mktmpdir` returns the path
`/tmp/x`, `sp_session_create` returns `error` and leaves `session` in the
out-parameter, the connection state is `state`. -/
def mock (error : sp_error) (session : sp_session) (state : Int) : Native :=
  { SPOTIFY_API_VERSION := 4
    mktmpdir := fun _ => .returned (rb_str_new2 "/tmp/x")
    sp_session_create := fun _ _ => (error, session)
    sp_session_connectionstate := fun _ => state }

/-- A session object after a successful `initialize`: `sp_session_create`
returned `SP_ERROR_OK` and stored the session pointer `7`. -/
def liveSession : Session :=
  ( cSession_initialize (mock 0 7 0) [rb_str_new2 "key"] (cSession_alloc .nil 1)).session

/-- All four resolved arguments are strings. -/
def Args.allStrings (args : Args) : Bool :=
  args.appkey.isString && args.user_agent.isString &&
    args.settings_path.isString && args.cache_path.isString

/-! ## Auxiliary facts -/

theorem check_types_eq (args : Args) :
    check_types args = if args.allStrings then .returned () else .raised .TypeError := by
  unfold check_types Check_Type_STRING Args.allStrings
  cases args.appkey.isString <;> cases args.user_agent.isString <;>
    cases args.settings_path.isString <;> cases args.cache_path.isString <;> rfl

theorem RSTRING_PTR_of_isString (v : VALUE) (h : v.isString = true) :
    VALUE.str (RSTRING_PTR v) = v := by
  cases v <;> simp_all [VALUE.isString, RSTRING_PTR]

theorem allStrings_iff (args : Args) :
    args.allStrings = true ↔
      args.appkey.isString = true ∧ args.user_agent.isString = true ∧
        args.settings_path.isString = true ∧ args.cache_path.isString = true := by
  simp [Args.allStrings, and_assoc]

/-- What `cSession_initialize` does once the four type checks have passed. -/
theorem cSession_initialize_checked (N : Native) (argv : List VALUE) (self : Session)
    (tmpdir : VALUE) (args : Args)
    (htmp : N.mktmpdir tmp_prefix = .returned tmpdir)
    (hres : resolve tmpdir argv = .returned args)
    (hstr : args.allStrings = true) :
    cSession_initialize N argv self =
      ⟨(if (N.sp_session_create (config N args self.self) self.pval).1 = SP_ERROR_OK
          then .returned self.self
          else .raised (.NativeSessionError
            (N.sp_session_create (config N args self.self) self.pval).1)),
        ⟨self.id, (N.sp_session_create (config N args self.self) self.pval).2⟩,
        [.mktmpdir tmp_prefix, .sp_session_create (config N args self.self)]⟩ := by
  unfold cSession_initialize
  simp only [htmp, hres, check_types_eq, hstr, if_true, ASSERT_OK]
  split_ifs <;> simp_all [Session.self]

/-- What `cSession_initialize` does when a type check fails. -/
theorem cSession_initialize_unchecked (N : Native) (argv : List VALUE) (self : Session)
    (tmpdir : VALUE) (args : Args)
    (htmp : N.mktmpdir tmp_prefix = .returned tmpdir)
    (hres : resolve tmpdir argv = .returned args)
    (hstr : args.allStrings = false) :
    cSession_initialize N argv self = ⟨.raised .TypeError, self, [.mktmpdir tmp_prefix]⟩ := by
  unfold cSession_initialize
  simp [htmp, hres, check_types_eq, hstr]

/-- What `cSession_initialize` does when `Dir.mktmpdir` raises. -/
theorem cSession_initialize_tmp_raised (N : Native) (argv : List VALUE) (self : Session)
    (e : Exception) (htmp : N.mktmpdir tmp_prefix = .raised e) :
    cSession_initialize N argv self = ⟨.raised e, self, [.mktmpdir tmp_prefix]⟩ := by
  unfold cSession_initialize
  simp [htmp]

/-- What `cSession_initialize` does when `rb_scan_args` raises. -/
theorem cSession_initialize_scan_raised (N : Native) (argv : List VALUE) (self : Session)
    (tmpdir : VALUE) (e : Exception)
    (htmp : N.mktmpdir tmp_prefix = .returned tmpdir)
    (hres : resolve tmpdir argv = .raised e) :
    cSession_initialize N argv self = ⟨.raised e, self, [.mktmpdir tmp_prefix]⟩ := by
  unfold cSession_initialize
  simp [htmp, hres]

/-- Every run of `cSession_initialize` calls `Dir.mktmpdir` exactly once, first
of all, whatever the arguments. -/
theorem cSession_initialize_mktmpdir (N : Native) (argv : List VALUE) (self : Session) :
    ( cSession_initialize N argv self).calls.filter Call.isMktmpdir =
      [.mktmpdir tmp_prefix] := by
  cases h1 : N.mktmpdir tmp_prefix with
  | raised e => rw [cSession_initialize_tmp_raised N argv self e h1]; rfl
  | returned tmpdir =>
    cases h2 : resolve tmpdir argv with
    | raised e => rw [cSession_initialize_scan_raised N argv self tmpdir e h1 h2]; rfl
    | returned args =>
      cases h3 : args.allStrings with
      | false => rw [cSession_initialize_unchecked N argv self tmpdir args h1 h2 h3]; rfl
      | true => rw [cSession_initialize_checked N argv self tmpdir args h1 h2 h3]; rfl

/-- A run of `cSession_initialize` that raises leaves the cell of a fresh
object `NULL`, provided a failing `sp_session_create` leaves `NULL` in its
out-parameter. -/
theorem cSession_initialize_raised_pval (N : Native) (argv : List VALUE) (self : Session)
    (e : Exception) (hself : self.pval = NULL)
    (hcontract : ∀ cfg, (N.sp_session_create cfg NULL).1 ≠ SP_ERROR_OK →
      (N.sp_session_create cfg NULL).2 = NULL)
    (hfail : ( cSession_initialize N argv self).result = .raised e) :
    ( cSession_initialize N argv self).session.pval = NULL := by
  cases h1 : N.mktmpdir tmp_prefix with
  | raised e => rw [cSession_initialize_tmp_raised N argv self e h1]; exact hself
  | returned tmpdir =>
    cases h2 : resolve tmpdir argv with
    | raised e => rw [cSession_initialize_scan_raised N argv self tmpdir e h1 h2]; exact hself
    | returned args =>
      cases h3 : args.allStrings with
      | false => rw [cSession_initialize_unchecked N argv self tmpdir args h1 h2 h3]; exact hself
      | true =>
        rw [cSession_initialize_checked N argv self tmpdir args h1 h2 h3] at hfail ⊢
        simp only [hself] at hfail ⊢
        by_cases hok : (N.sp_session_create (config N args self.self) NULL).1 = SP_ERROR_OK
        · simp [hok] at hfail
        · exact hcontract _ hok

/-- A run of `cSession_initialize` that raises anything but what `ASSERT_OK`
raises has not reached `sp_session_create`: the object is as it was. -/
theorem cSession_initialize_raised_early (N : Native) (argv : List VALUE) (self : Session)
    (e : Exception) (hne : ∀ code, e ≠ .NativeSessionError code)
    (hfail : ( cSession_initialize N argv self).result = .raised e) :
    ( cSession_initialize N argv self).session = self ∧
    countCalls Call.isCreate ( cSession_initialize N argv self).calls = 0 := by
  cases h1 : N.mktmpdir tmp_prefix with
  | raised e => rw [cSession_initialize_tmp_raised N argv self e h1]; exact ⟨rfl, rfl⟩
  | returned tmpdir =>
    cases h2 : resolve tmpdir argv with
    | raised e =>
      rw [cSession_initialize_scan_raised N argv self tmpdir e h1 h2]; exact ⟨rfl, rfl⟩
    | returned args =>
      cases h3 : args.allStrings with
      | false =>
        rw [cSession_initialize_unchecked N argv self tmpdir args h1 h2 h3]; exact ⟨rfl, rfl⟩
      | true =>
        rw [cSession_initialize_checked N argv self tmpdir args h1 h2 h3] at hfail
        exfalso
        by_cases hok : (N.sp_session_create (config N args self.self) self.pval).1 = SP_ERROR_OK
        · simp [hok] at hfail
        · simp only [hok, if_false] at hfail
          injection hfail with hfail
          exact hne _ hfail.symm

/-- The resolved arguments, by the number of arguments given. -/
theorem resolve_cases (tmpdir : VALUE) (argv : List VALUE) (args : Args)
    (hres : resolve tmpdir argv = .returned args) :
    (∃ a, argv = [a] ∧ args = ⟨a, rb_str_new2 "Hallon", tmpdir, tmpdir⟩) ∨
    (∃ a u, argv = [a, u] ∧ args = ⟨a, u, tmpdir, tmpdir⟩) ∨
    (∃ a u s, argv = [a, u, s] ∧ args = ⟨a, u, s, s⟩) ∨
    (∃ a u s c, argv = [a, u, s, c] ∧ args = ⟨a, u, s, c⟩) := by
  rcases argv with _ | ⟨a, _ | ⟨u, _ | ⟨s, _ | ⟨c, _ | ⟨x, rest⟩⟩⟩⟩⟩ <;>
    simp [resolve, rb_scan_args_13, defaults] at hres <;> subst hres <;> simp

/-! ## The claims -/

/-- C1: on a live handle (the resource pointer is not `NULL`) `state` asks the
native library once for the connection status `c` and returns `:logged_out`
when `c` is `SP_CONNECTION_STATE_LOGGED_OUT`, `:logged_in` when `c` is
`SP_CONNECTION_STATE_LOGGED_IN`, `:disconnected` when `c` is
`SP_CONNECTION_STATE_DISCONNECTED` and `:undefined` for every other `c`; it
always returns, and always one of these four symbols. -/
theorem cSession_state_maps_status (N : Native) (self : Session) (c : Int)
    (hlive : self.pval ≠ NULL)
    (hc : N.sp_session_connectionstate self.pval = c) :
    (c = SP_CONNECTION_STATE_LOGGED_OUT →
      (cSession_state N self).result = .returned (STR2SYM "logged_out")) ∧
    (c = SP_CONNECTION_STATE_LOGGED_IN →
      (cSession_state N self).result = .returned (STR2SYM "logged_in")) ∧
    (c = SP_CONNECTION_STATE_DISCONNECTED →
      (cSession_state N self).result = .returned (STR2SYM "disconnected")) ∧
    (c ≠ SP_CONNECTION_STATE_LOGGED_OUT → c ≠ SP_CONNECTION_STATE_LOGGED_IN →
      c ≠ SP_CONNECTION_STATE_DISCONNECTED →
      (cSession_state N self).result = .returned (STR2SYM "undefined")) ∧
    ((cSession_state N self).result = .returned (STR2SYM "logged_out") ∨
      (cSession_state N self).result = .returned (STR2SYM "logged_in") ∨
      (cSession_state N self).result = .returned (STR2SYM "disconnected") ∨
      (cSession_state N self).result = .returned (STR2SYM "undefined")) ∧
    (cSession_state N self).calls = [.sp_session_connectionstate self.pval] := by
  have hget : Data_Get_PVal self = .returned self.pval := by
    simp [Data_Get_PVal, hlive]
  unfold cSession_state
  simp only [hget, hc]
  refine ⟨?_, ?_, ?_, ?_, ?_, ?_⟩
  · intro h; simp [h]
  · intro h; simp [h, SP_CONNECTION_STATE_LOGGED_IN, SP_CONNECTION_STATE_LOGGED_OUT]
  · intro h
    simp [h, SP_CONNECTION_STATE_LOGGED_IN, SP_CONNECTION_STATE_LOGGED_OUT,
      SP_CONNECTION_STATE_DISCONNECTED]
  · intro h1 h2 h3; simp [h1, h2, h3]
  · split_ifs <;> simp
  · split_ifs <;> rfl

theorem cSession_state_maps_status_witness :
    (cSession_state (mock 0 7 1) ⟨1, 7⟩).result = .returned (STR2SYM "logged_in") ∧
    (cSession_state (mock 0 7 99) ⟨1, 7⟩).result = .returned (STR2SYM "undefined") ∧
    (cSession_state (mock 0 7 (-1)) ⟨1, 7⟩).result = .returned (STR2SYM "undefined") :=
  ⟨(cSession_state_maps_status (mock 0 7 1) ⟨1, 7⟩ 1 (by decide) rfl).2.1 rfl,
   (cSession_state_maps_status (mock 0 7 99) ⟨1, 7⟩ 99 (by decide) rfl).2.2.2.1
      (by decide) (by decide) (by decide),
   (cSession_state_maps_status (mock 0 7 (-1)) ⟨1, 7⟩ (-1) (by decide) rfl).2.2.2.1
      (by decide) (by decide) (by decide)⟩

/-- C2: when the four resolved arguments are strings, `initialize` calls
`sp_session_create` exactly once; if the status `e` it returns is not
`SP_ERROR_OK`, `initialize` raises `NativeSessionError` carrying `e`, and if it
is `SP_ERROR_OK`, `initialize` returns `self`. -/
theorem cSession_initialize_native_status (N : Native) (argv : List VALUE) (self : Session)
    (tmpdir : VALUE) (args : Args) (e : sp_error)
    (htmp : N.mktmpdir tmp_prefix = .returned tmpdir)
    (hres : resolve tmpdir argv = .returned args)
    (hstr : args.allStrings = true)
    (he : (N.sp_session_create (config N args self.self) self.pval).1 = e) :
    (e ≠ SP_ERROR_OK →
      ( cSession_initialize N argv self).result = .raised (.NativeSessionError e)) ∧
    (e = SP_ERROR_OK →
      ( cSession_initialize N argv self).result = .returned self.self) ∧
    countCalls Call.isCreate ( cSession_initialize N argv self).calls = 1 := by
  rw [cSession_initialize_checked N argv self tmpdir args htmp hres hstr]
  simp only [he]
  refine ⟨fun h => by simp [h], fun h => by simp [h], rfl⟩

theorem cSession_initialize_native_status_witness :
    ( cSession_initialize (mock 8 0 0) [rb_str_new2 "key"] (cSession_alloc .nil 1)).result =
      .raised (.NativeSessionError 8) ∧
    ( cSession_initialize (mock 0 7 0) [rb_str_new2 "key"] (cSession_alloc .nil 1)).result =
      .returned (VALUE.data 1) :=
  ⟨(cSession_initialize_native_status (mock 8 0 0) [rb_str_new2 "key"] (cSession_alloc .nil 1)
      (rb_str_new2 "/tmp/x")
      ⟨rb_str_new2 "key", rb_str_new2 "Hallon", rb_str_new2 "/tmp/x", rb_str_new2 "/tmp/x"⟩
      8 rfl rfl rfl rfl).1 (by decide),
   (cSession_initialize_native_status (mock 0 7 0) [rb_str_new2 "key"] (cSession_alloc .nil 1)
      (rb_str_new2 "/tmp/x")
      ⟨rb_str_new2 "key", rb_str_new2 "Hallon", rb_str_new2 "/tmp/x", rb_str_new2 "/tmp/x"⟩
      0 rfl rfl rfl rfl).2.1 rfl⟩

/-- C3: when one of the four resolved arguments (application key, user agent,
settings path, cache path) is not a string, `initialize` raises `TypeError`
and `sp_session_create` is not called. -/
theorem cSession_initialize_type_error (N : Native) (argv : List VALUE) (self : Session)
    (tmpdir : VALUE) (args : Args)
    (htmp : N.mktmpdir tmp_prefix = .returned tmpdir)
    (hres : resolve tmpdir argv = .returned args)
    (hbad : args.appkey.isString = false ∨ args.user_agent.isString = false ∨
      args.settings_path.isString = false ∨ args.cache_path.isString = false) :
    ( cSession_initialize N argv self).result = .raised .TypeError ∧
    countCalls Call.isCreate ( cSession_initialize N argv self).calls = 0 ∧
    ( cSession_initialize N argv self).session = self := by
  have hstr : args.allStrings = false := by
    rcases hbad with h | h | h | h <;> simp [Args.allStrings, h]
  rw [cSession_initialize_unchecked N argv self tmpdir args htmp hres hstr]
  exact ⟨rfl, rfl, rfl⟩

theorem cSession_initialize_type_error_witness :
    ( cSession_initialize (mock 0 7 0) [rb_str_new2 "key", .fixnum 5]
      (cSession_alloc .nil 1)).result = .raised .TypeError ∧
    countCalls Call.isCreate ( cSession_initialize (mock 0 7 0) [rb_str_new2 "key", .fixnum 5]
      (cSession_alloc .nil 1)).calls = 0 ∧
    ( cSession_initialize (mock 0 7 0) [rb_str_new2 "key", .fixnum 5]
      (cSession_alloc .nil 1)).session = cSession_alloc .nil 1 :=
  cSession_initialize_type_error (mock 0 7 0) [rb_str_new2 "key", .fixnum 5]
    (cSession_alloc .nil 1) (rb_str_new2 "/tmp/x")
    ⟨rb_str_new2 "key", .fixnum 5, rb_str_new2 "/tmp/x", rb_str_new2 "/tmp/x"⟩
    rfl rfl (Or.inr (Or.inl rfl))

/-- C4: in a call of `initialize` without a cache path (one, two or three
arguments) the resolved cache path is the resolved settings path: the third
argument when three are given, and the one value `Dir.mktmpdir` returned when
the settings path is left out as well.  `Dir.mktmpdir` is called once in the
whole run, so no second directory is made for the cache, and a configuration
handed to `sp_session_create` has equal `cache_location` and
`settings_location`. -/
theorem cSession_initialize_cache_default (N : Native) (argv : List VALUE) (self : Session)
    (tmpdir : VALUE) (args : Args)
    (htmp : N.mktmpdir tmp_prefix = .returned tmpdir)
    (hres : resolve tmpdir argv = .returned args)
    (homit : argv.length ≤ 3) :
    args.cache_path = args.settings_path ∧
    (∀ a u s, argv = [a, u, s] → args.settings_path = s) ∧
    (argv.length ≤ 2 → args.settings_path = tmpdir) ∧
    countCalls Call.isMktmpdir ( cSession_initialize N argv self).calls = 1 ∧
    (∀ cfg, Call.sp_session_create cfg ∈ ( cSession_initialize N argv self).calls →
      cfg.cache_location = cfg.settings_location) ∧
    (args.allStrings = true →
      ∃ cfg, Call.sp_session_create cfg ∈ ( cSession_initialize N argv self).calls) := by
  have hcache : args.cache_path = args.settings_path := by
    rcases resolve_cases tmpdir argv args hres with
      ⟨a, h, rfl⟩ | ⟨a, u, h, rfl⟩ | ⟨a, u, s, h, rfl⟩ | ⟨a, u, s, c, h, rfl⟩
    · rfl
    · rfl
    · rfl
    · subst h; simp at homit
  refine ⟨hcache, ?_, ?_, ?_, ?_, ?_⟩
  · intro a u s h
    rcases resolve_cases tmpdir argv args hres with
      ⟨a1, h1, rfl⟩ | ⟨a1, u1, h1, rfl⟩ | ⟨a1, u1, s1, h1, rfl⟩ | ⟨a1, u1, s1, c1, h1, rfl⟩ <;>
      simp_all
  · intro hlen
    rcases resolve_cases tmpdir argv args hres with
      ⟨a1, h1, rfl⟩ | ⟨a1, u1, h1, rfl⟩ | ⟨a1, u1, s1, h1, rfl⟩ | ⟨a1, u1, s1, c1, h1, rfl⟩ <;>
      simp_all
  · unfold countCalls
    rw [cSession_initialize_mktmpdir]
    rfl
  · intro cfg hcfg
    cases hstr : args.allStrings with
    | false =>
      rw [cSession_initialize_unchecked N argv self tmpdir args htmp hres hstr] at hcfg
      simp at hcfg
    | true =>
      rw [cSession_initialize_checked N argv self tmpdir args htmp hres hstr] at hcfg
      simp at hcfg
      subst hcfg
      simp [config, hcache]
  · intro hstr
    rw [cSession_initialize_checked N argv self tmpdir args htmp hres hstr]
    exact ⟨config N args self.self, by simp⟩

theorem cSession_initialize_cache_default_witness :
    (∀ cfg, Call.sp_session_create cfg ∈
        ( cSession_initialize (mock 0 7 0) [rb_str_new2 "key", rb_str_new2 "ua", rb_str_new2 "/s"]
          (cSession_alloc .nil 1)).calls →
      cfg.cache_location = cfg.settings_location) ∧
    ( cSession_initialize (mock 0 7 0) [rb_str_new2 "key", rb_str_new2 "ua", rb_str_new2 "/s"]
      (cSession_alloc .nil 1)).calls.length = 2 :=
  ⟨(cSession_initialize_cache_default (mock 0 7 0)
      [rb_str_new2 "key", rb_str_new2 "ua", rb_str_new2 "/s"] (cSession_alloc .nil 1)
      (rb_str_new2 "/tmp/x")
      ⟨rb_str_new2 "key", rb_str_new2 "ua", rb_str_new2 "/s", rb_str_new2 "/s"⟩
      rfl rfl (by decide)).2.2.2.2.1, by decide⟩

/-- C5: in a call of `initialize` with the application key alone the resolved
user agent is the string `"Hallon"`, and it is the `user_agent` of every
configuration handed to `sp_session_create` (one is handed over as soon as the
resolved arguments are strings); in a call with two, three or four arguments
the resolved user agent is the second argument, unchanged. -/
theorem cSession_initialize_user_agent_default (N : Native) (argv : List VALUE)
    (self : Session) (tmpdir : VALUE) (args : Args)
    (htmp : N.mktmpdir tmp_prefix = .returned tmpdir)
    (hres : resolve tmpdir argv = .returned args) :
    (argv.length = 1 →
      args.user_agent = rb_str_new2 "Hallon" ∧
      (∀ cfg, Call.sp_session_create cfg ∈ ( cSession_initialize N argv self).calls →
        cfg.user_agent = cstr "Hallon") ∧
      (args.appkey.isString = true → tmpdir.isString = true →
        ∃ cfg, Call.sp_session_create cfg ∈ ( cSession_initialize N argv self).calls)) ∧
    (∀ u, argv.get? 1 = some u →
      args.user_agent = u ∧
      (∀ cfg, Call.sp_session_create cfg ∈ ( cSession_initialize N argv self).calls →
        VALUE.str cfg.user_agent = u)) := by
  have hcfg : ∀ cfg, Call.sp_session_create cfg ∈ ( cSession_initialize N argv self).calls →
      VALUE.str cfg.user_agent = args.user_agent := by
    intro cfg hcfg
    cases hstr : args.allStrings with
    | false =>
      rw [cSession_initialize_unchecked N argv self tmpdir args htmp hres hstr] at hcfg
      simp at hcfg
    | true =>
      rw [cSession_initialize_checked N argv self tmpdir args htmp hres hstr] at hcfg
      simp at hcfg
      subst hcfg
      exact RSTRING_PTR_of_isString _ ((allStrings_iff args).1 hstr).2.1
  constructor
  · intro hlen
    rcases resolve_cases tmpdir argv args hres with
      ⟨a, h, rfl⟩ | ⟨a, u, h, rfl⟩ | ⟨a, u, s, h, rfl⟩ | ⟨a, u, s, c, h, rfl⟩
    · refine ⟨rfl, ?_, ?_⟩
      · intro cfg hmem
        have := hcfg cfg hmem
        simpa [rb_str_new2] using this
      · intro ha ht
        have hstr : Args.allStrings ⟨a, rb_str_new2 "Hallon", tmpdir, tmpdir⟩ = true := by
          have ha1 : a.isString = true := ha
          simp only [Args.allStrings, ha1, ht, Bool.and_self, Bool.and_true]
          rfl
        rw [cSession_initialize_checked N argv self tmpdir _ htmp hres hstr]
        exact ⟨config N ⟨a, rb_str_new2 "Hallon", tmpdir, tmpdir⟩ self.self, by simp⟩
    · subst h; simp at hlen
    · subst h; simp at hlen
    · subst h; simp at hlen
  · intro u hu
    have hua : args.user_agent = u := by
      rcases resolve_cases tmpdir argv args hres with
        ⟨a1, h1, rfl⟩ | ⟨a1, u1, h1, rfl⟩ | ⟨a1, u1, s1, h1, rfl⟩ | ⟨a1, u1, s1, c1, h1, rfl⟩ <;>
        subst h1 <;> simp at hu <;> simp [hu]
    exact ⟨hua, fun cfg hmem => hua ▸ hcfg cfg hmem⟩

theorem cSession_initialize_user_agent_default_witness :
    (∃ cfg, Call.sp_session_create cfg ∈
      ( cSession_initialize (mock 0 7 0) [rb_str_new2 "key"] (cSession_alloc .nil 1)).calls) ∧
    (∀ cfg, Call.sp_session_create cfg ∈
        ( cSession_initialize (mock 0 7 0) [rb_str_new2 "key"] (cSession_alloc .nil 1)).calls →
      cfg.user_agent = cstr "Hallon") :=
  ⟨((cSession_initialize_user_agent_default (mock 0 7 0) [rb_str_new2 "key"]
      (cSession_alloc .nil 1) (rb_str_new2 "/tmp/x")
      ⟨rb_str_new2 "key", rb_str_new2 "Hallon", rb_str_new2 "/tmp/x", rb_str_new2 "/tmp/x"⟩
      rfl rfl).1 rfl).2.2 rfl rfl,
   ((cSession_initialize_user_agent_default (mock 0 7 0) [rb_str_new2 "key"]
      (cSession_alloc .nil 1) (rb_str_new2 "/tmp/x")
      ⟨rb_str_new2 "key", rb_str_new2 "Hallon", rb_str_new2 "/tmp/x", rb_str_new2 "/tmp/x"⟩
      rfl rfl).1 rfl).2.1⟩

/-- C6, as it stands, fails: the object of a successful `initialize` is torn
down twice, and `sp_session_release` is called twice, once by each
teardown, both times with the same pointer. -/
theorem cSession_free_twice_releases_twice :
    liveSession.pval = 7 ∧
    (cSession_free liveSession).calls = [.sp_session_release 7] ∧
    (cSession_free (cSession_free liveSession).session).calls = [.sp_session_release 7] ∧
    countCalls Call.isRelease
      ((cSession_free liveSession).calls ++
        (cSession_free (cSession_free liveSession).session).calls) = 2 := by
  decide

/-- C6, amended: a teardown never raises, never writes the resource pointer,
and calls `sp_session_release` at most once: not at all when the pointer is
`NULL`, and exactly once, with the pointer of the object, when it is not.  For
an object whose pointer is `NULL` teardown is idempotent: a second teardown
does not raise either, and the two together make no call at all. -/
theorem cSession_free_once (s : Session) :
    (cSession_free s).result = .returned () ∧
    (cSession_free s).session = s ∧
    (cSession_free s).calls =
      (if s.pval = NULL then [] else [.sp_session_release s.pval]) ∧
    countCalls Call.isRelease (cSession_free s).calls ≤ 1 ∧
    (s.pval = NULL →
      (cSession_free (cSession_free s).session).result = .returned () ∧
      (cSession_free (cSession_free s).session).session = s ∧
      (cSession_free s).calls ++ (cSession_free (cSession_free s).session).calls = []) := by
  by_cases h : s.pval = NULL
  · simp [cSession_free, ASSERT_NOT_EMPTY, h, countCalls]
  · simp [cSession_free, ASSERT_NOT_EMPTY, h, countCalls, Call.isRelease]

theorem cSession_free_once_witness :
    ((cSession_free (cSession_free (cSession_alloc .nil 1)).session).result = .returned () ∧
      (cSession_free (cSession_free (cSession_alloc .nil 1)).session).session =
        cSession_alloc .nil 1 ∧
      (cSession_free (cSession_alloc .nil 1)).calls ++
        (cSession_free (cSession_free (cSession_alloc .nil 1)).session).calls = []) ∧
    (cSession_free ⟨1, 7⟩).calls = [.sp_session_release 7] :=
  ⟨(cSession_free_once (cSession_alloc .nil 1)).2.2.2.2 rfl,
   (cSession_free_once ⟨1, 7⟩).2.2.1⟩

/-- C7: teardown of an object whose native resource was never created makes no
call of `sp_session_release`.  That is so for an object that was allocated and
never initialized, for an object whose `initialize` raised `TypeError`, and
for an object whose `initialize` raised on a non-success status of
`sp_session_create`, the library keeping its contract that a failing
`sp_session_create` leaves a `NULL` handle. -/
theorem cSession_free_never_created (N : Native) (argv : List VALUE) (klass : VALUE)
    (id : Nat) :
    countCalls Call.isRelease (cSession_free (cSession_alloc klass id)).calls = 0 ∧
    (( cSession_initialize N argv (cSession_alloc klass id)).result = .raised .TypeError →
      countCalls Call.isRelease
        (cSession_free ( cSession_initialize N argv (cSession_alloc klass id)).session).calls
          = 0) ∧
    (∀ code,
      (∀ cfg, (N.sp_session_create cfg NULL).1 ≠ SP_ERROR_OK →
        (N.sp_session_create cfg NULL).2 = NULL) →
      ( cSession_initialize N argv (cSession_alloc klass id)).result =
        .raised (.NativeSessionError code) →
      countCalls Call.isRelease
        (cSession_free ( cSession_initialize N argv (cSession_alloc klass id)).session).calls
          = 0) := by
  refine ⟨rfl, ?_, ?_⟩
  · intro hfail
    rw [(cSession_initialize_raised_early N argv (cSession_alloc klass id) .TypeError
      (fun _ h => by cases h) hfail).1]
    rfl
  · intro code hcontract hfail
    have h := cSession_initialize_raised_pval N argv (cSession_alloc klass id) _ rfl
      hcontract hfail
    simp [cSession_free, ASSERT_NOT_EMPTY, h, countCalls]

theorem cSession_free_never_created_witness :
    countCalls Call.isRelease
      (cSession_free ( cSession_initialize (mock 0 7 0) [.fixnum 3]
        (cSession_alloc .nil 1)).session).calls = 0 ∧
    countCalls Call.isRelease
      (cSession_free ( cSession_initialize (mock 8 0 0) [rb_str_new2 "key"]
        (cSession_alloc .nil 1)).session).calls = 0 :=
  ⟨(cSession_free_never_created (mock 0 7 0) [.fixnum 3] .nil 1).2.1 rfl,
   (cSession_free_never_created (mock 8 0 0) [rb_str_new2 "key"] .nil 1).2.2 8
      (fun _ _ => rfl) rfl⟩

/-- C9, the code at a call that gives the settings path: with three arguments
and with four, `initialize` still calls `Dir.mktmpdir` once (the claim says
zero times), before it looks at the arguments. -/
theorem cSession_initialize_mktmpdir_unconditional :
    countCalls Call.isMktmpdir
      ( cSession_initialize (mock 0 7 0)
        [rb_str_new2 "key", rb_str_new2 "ua", rb_str_new2 "/s"] (cSession_alloc .nil 1)).calls = 1 ∧
    countCalls Call.isMktmpdir
      ( cSession_initialize (mock 0 7 0)
        [rb_str_new2 "key", rb_str_new2 "ua", rb_str_new2 "/s", rb_str_new2 "/c"]
        (cSession_alloc .nil 1)).calls = 1 ∧
    ( cSession_initialize (mock 0 7 0)
        [rb_str_new2 "key", rb_str_new2 "ua", rb_str_new2 "/s"] (cSession_alloc .nil 1)).calls.head? =
      some (.mktmpdir (rb_str_new2 "se.burgestrand.hallon")) := by
  decide

/-- C10: when the four resolved arguments are strings, `initialize` calls
`sp_session_create` exactly once, with a configuration whose `api_version` is
`SPOTIFY_API_VERSION`, whose `cache_location`, `settings_location` and
`user_agent` are the resolved cache path, settings path and user agent, whose
`application_key` is the bytes of the application key and
`application_key_size` their number (the stored length of the string, which is
not `strlen` when the key contains a NUL byte), whose callback table has
fifteen slots, all `NULL`, and whose `tiny_settings` is `true`. -/
theorem cSession_initialize_config (N : Native) (argv : List VALUE) (self : Session)
    (tmpdir : VALUE) (args : Args)
    (htmp : N.mktmpdir tmp_prefix = .returned tmpdir)
    (hres : resolve tmpdir argv = .returned args)
    (hstr : args.allStrings = true) :
    ∃ cfg,
      ( cSession_initialize N argv self).calls.filter Call.isCreate =
        [.sp_session_create cfg] ∧
      cfg.api_version = N.SPOTIFY_API_VERSION ∧
      VALUE.str cfg.cache_location = args.cache_path ∧
      VALUE.str cfg.settings_location = args.settings_path ∧
      VALUE.str cfg.application_key = args.appkey ∧
      cfg.application_key_size = cfg.application_key.length ∧
      VALUE.str cfg.user_agent = args.user_agent ∧
      cfg.callbacks.slots = List.replicate 15 none ∧
      cfg.tiny_settings = true := by
  obtain ⟨ha, hu, hs, hc⟩ := (allStrings_iff args).1 hstr
  refine ⟨config N args self.self, ?_, rfl, ?_, ?_, ?_, rfl, ?_, rfl, rfl⟩
  · rw [cSession_initialize_checked N argv self tmpdir args htmp hres hstr]
    rfl
  · exact RSTRING_PTR_of_isString _ hc
  · exact RSTRING_PTR_of_isString _ hs
  · exact RSTRING_PTR_of_isString _ ha
  · exact RSTRING_PTR_of_isString _ hu

theorem cSession_initialize_config_witness :
    (∃ cfg,
      ( cSession_initialize (mock 0 7 0) [.str [1, 0, 2]] (cSession_alloc .nil 1)).calls.filter
          Call.isCreate = [.sp_session_create cfg] ∧
      cfg.api_version = (mock 0 7 0).SPOTIFY_API_VERSION ∧
      VALUE.str cfg.cache_location = rb_str_new2 "/tmp/x" ∧
      VALUE.str cfg.settings_location = rb_str_new2 "/tmp/x" ∧
      VALUE.str cfg.application_key = .str [1, 0, 2] ∧
      cfg.application_key_size = cfg.application_key.length ∧
      VALUE.str cfg.user_agent = rb_str_new2 "Hallon" ∧
      cfg.callbacks.slots = List.replicate 15 none ∧
      cfg.tiny_settings = true) ∧
    RSTRING_LEN (.str [1, 0, 2]) = 3 ∧ strlen [1, 0, 2] = 1 :=
  ⟨cSession_initialize_config (mock 0 7 0) [.str [1, 0, 2]] (cSession_alloc .nil 1)
      (rb_str_new2 "/tmp/x")
      ⟨.str [1, 0, 2], rb_str_new2 "Hallon", rb_str_new2 "/tmp/x", rb_str_new2 "/tmp/x"⟩
      rfl rfl rfl, by decide, by decide⟩

end Hallon
